import Mathlib

/-!
Shallow embedding of the `chip8-core` crate (conorbranagan/chip-8-rs):
`memory.rs`, `display.rs`, `keypad.rs`, `instructions.rs`, `vm.rs`.

Conventions of the embedding:
* Rust `u8`/`u16`/`usize` values are `Nat`; every place the Rust code wraps
  (`wrapping_add`, `as u16`, release-mode `+` on `u8`) is an explicit `% 256`
  or `% 65536`.
* `Vec`/arrays are `List`s.  Rust's out-of-range indexing aborts the process;
  where a claim never exercises that path the embedding reads with a default
  (`List.getD`) and writes with `List.set` (which is a no-op out of range),
  and the surrounding theorems carry the in-bounds facts explicitly.
* Fallible operations return `Except`/`Option`; a Rust `panic!` (including
  `Result::unwrap` on an `Err`) is modelled as the `VMError.Panic` error or,
  for the bare `Stack` of `memory.rs`, as `Option.none`.
* `rand::thread_rng().gen_range(0..=255)` in the `Random` arm is passed in as
  an explicit oracle argument `randByte` to `execute`/`run_cycle`.
-/

/-- The error enum `VMError` of `vm.rs` (the io-specific variants
`RomLoadFailure`/`FileCreationError` belong to `load_rom`, which does file IO
and is outside this embedding).  The extra `Panic` constructor models a Rust
`panic!`, e.g. `Result::unwrap` on an `Err` in the `Display` arm. -/
inductive VMError where
  | UnknownInstruction (code : Nat)
  | UnknownKey (code : Nat)
  | StackUnderflow
  | StackOverflow
  | Panic (msg : String)
deriving DecidableEq, Repr

/-- The `FONT` table of `memory.rs`: 16 glyphs of 5 bytes each. -/
def FONT : List (List Nat) :=
  [[0xF0, 0x90, 0x90, 0x90, 0xF0],
   [0x20, 0x60, 0x20, 0x20, 0x70],
   [0xF0, 0x10, 0xF0, 0x80, 0xF0],
   [0xF0, 0x10, 0xF0, 0x10, 0xF0],
   [0x90, 0x90, 0xF0, 0x10, 0x10],
   [0xF0, 0x80, 0xF0, 0x10, 0xF0],
   [0xF0, 0x80, 0xF0, 0x90, 0xF0],
   [0xF0, 0x10, 0x20, 0x40, 0x40],
   [0xF0, 0x90, 0xF0, 0x90, 0xF0],
   [0xF0, 0x90, 0xF0, 0x10, 0xF0],
   [0xF0, 0x90, 0xF0, 0x90, 0x90],
   [0xE0, 0x90, 0xE0, 0x90, 0xE0],
   [0xF0, 0x80, 0x80, 0x80, 0xF0],
   [0xE0, 0x90, 0x90, 0x90, 0xE0],
   [0xF0, 0x80, 0xF0, 0x80, 0xF0],
   [0xF0, 0x80, 0xF0, 0x80, 0x80]]

/-- `RAM_SIZE` of `memory.rs`. -/
def RAM_SIZE : Nat := 4 * 1024

/-- `Memory` of `memory.rs`: a flat byte array. -/
structure Memory where
  data : List Nat
deriving DecidableEq, Repr

/-- `Memory::write`: `self.data[addr] = val` (Rust aborts out of range; the
claims only exercise in-range addresses, where `List.set` agrees). -/
def Memory.write (m : Memory) (addr : Nat) (val : Nat) : Memory :=
  ⟨m.data.set addr val⟩

/-- `Memory::read`: `self.data[addr]` (Rust aborts out of range; the claims
only exercise in-range addresses, where `List.getD` agrees). -/
def Memory.read (m : Memory) (addr : Nat) : Nat :=
  m.data.getD addr 0

/-- `Memory::new` of `memory.rs`: zeroed RAM, then the font-loading loop
`for (i, row) in FONT { for (j, col) in row { m.data[(i * row.len()) * j] = *col } }`
exactly as written in the source (the index expression is `(i * 5) * j`,
`row.len()` being 5). -/
def Memory.new : Memory :=
  (List.range 16).foldl
    (fun m i =>
      (List.range 5).foldl
        (fun m j => m.write ((i * 5) * j) ((FONT.getD i []).getD j 0))
        m)
    ⟨List.replicate RAM_SIZE 0⟩

/-- `MAX_STACK_SIZE` of `memory.rs`. -/
def MAX_STACK_SIZE : Nat := 100

/-- `Stack` of `memory.rs`: `data: Vec<u16>`, `sp: usize`, `max_size: usize`. -/
structure Stack where
  data : List Nat
  sp : Nat
  max_size : Nat
deriving DecidableEq, Repr

/-- `Stack::new`. -/
def Stack.new (max_size : Nat) : Stack :=
  ⟨[], 0, max_size⟩

/-- `Stack::default`. -/
def Stack.deflt : Stack :=
  Stack.new MAX_STACK_SIZE

/-- `Stack::push` of `memory.rs`.  The source signature is
`fn push(&mut self, value: u16)` and on `sp >= max_size` it executes
`panic!("stack overflow")`; the panic (process abort) is modelled as `none`. -/
def Stack.push (s : Stack) (value : Nat) : Option Stack :=
  if s.max_size ≤ s.sp then
    none
  else if s.sp = s.data.length then
    some ⟨s.data ++ [value], s.sp + 1, s.max_size⟩
  else
    some ⟨s.data.set s.sp value, s.sp + 1, s.max_size⟩

/-- `Stack::pop` of `memory.rs`.  The source signature is
`fn pop(&mut self) -> u16` and on `sp == 0` it executes
`panic!("stack underflow")`; the panic is modelled as `none`. -/
def Stack.pop (s : Stack) : Option (Nat × Stack) :=
  if s.sp = 0 then
    none
  else
    some (s.data.getD (s.sp - 1) 0, ⟨s.data, s.sp - 1, s.max_size⟩)

/-- Modelled from the spec: the `Result`-returning stack that the
`CallSubroutine`/`ExitSubroutine` arms of `vm.rs` are written against
(`self.stack.push(..)?`, `if let Ok(addr) = self.stack.pop()`) is not present
in the sources — the in-tree `Stack` of `memory.rs` panics instead of
returning a `Result`.  Per spec §3/§4.2: a bounded LIFO of 16-bit return
addresses, default depth 100; `push` fails with `StackOverflow` when
`depth == max_size` without mutating state; `pop` fails with
`StackUnderflow` when empty without mutating state. -/
structure VStack where
  data : List Nat
  max_size : Nat
deriving DecidableEq, Repr

/-- Modelled from the spec: fresh empty stack with the default depth 100. -/
def VStack.deflt : VStack :=
  ⟨[], 100⟩

/-- Modelled from the spec: `push(value) -> Result<(), StackOverflow>`,
failing at full depth without mutation. -/
def VStack.push (s : VStack) (value : Nat) : Except VMError VStack :=
  if s.max_size ≤ s.data.length then
    .error .StackOverflow
  else
    .ok ⟨value :: s.data, s.max_size⟩

/-- Modelled from the spec: `pop() -> Result<value, StackUnderflow>`, failing
on an empty stack without mutation; LIFO, so the most recent push is popped. -/
def VStack.pop (s : VStack) : Except VMError (Nat × VStack) :=
  match s.data with
  | [] => .error .StackUnderflow
  | v :: rest => .ok (v, ⟨rest, s.max_size⟩)

/-- `Display` of `display.rs`: `pixels: [[bool; 64]; 32]`, row-major, indexed
`pixels[y][x]`. -/
structure Display where
  pixels : List (List Bool)
deriving DecidableEq, Repr

/-- `Display::WIDTH`. -/
def Display.WIDTH : Nat := 64

/-- `Display::HEIGHT`. -/
def Display.HEIGHT : Nat := 32

/-- `Display::new`. -/
def Display.new : Display :=
  ⟨List.replicate Display.HEIGHT (List.replicate Display.WIDTH false)⟩

/-- `Display::set` of `display.rs`:
`if y >= self.pixels.len() || x >= self.pixels[y].len() { return; }` (the
source comment reads "Cut off bytes outside of the display"), then
`self.pixels[y & 31][x & 63] = val`. -/
def Display.set (d : Display) (x y : Nat) (val : Bool) : Display :=
  if d.pixels.length ≤ y ∨ (d.pixels.getD y []).length ≤ x then
    d
  else
    let ym := y &&& (Display.HEIGHT - 1)
    let xm := x &&& (Display.WIDTH - 1)
    ⟨d.pixels.set ym ((d.pixels.getD ym []).set xm val)⟩

/-- `Display::get` of `display.rs`: `Err("pixel out of range")` when
`y >= pixels.len() || x >= pixels[y].len()`, else `Ok(pixels[y][x])`. -/
def Display.get (d : Display) (x y : Nat) : Except String Bool :=
  if d.pixels.length ≤ y ∨ (d.pixels.getD y []).length ≤ x then
    .error "pixel out of range"
  else
    .ok ((d.pixels.getD y []).getD x false)

/-- `Display::clear`: every pixel reset to `false`. -/
def Display.clear (_ : Display) : Display :=
  ⟨List.replicate Display.HEIGHT (List.replicate Display.WIDTH false)⟩

/-- Shape invariant of the Rust type `[[bool; 64]; 32]`, which the `List`
embedding does not enforce by itself. -/
def Display.WF (d : Display) : Prop :=
  d.pixels.length = 32 ∧ ∀ i, i < 32 → (d.pixels.getD i []).length = 64

instance (d : Display) : Decidable d.WF := by
  unfold Display.WF
  infer_instance

/-- `KeyState` of `keypad.rs`. -/
inductive KeyState where
  | NotPressed
  | Pressed
deriving DecidableEq, Repr

/-- `KeyWait` of `keypad.rs`. -/
inductive KeyWait where
  | NotWaiting
  | WaitingForPress (reg : Nat)
  | WaitingForRelease (code : Nat)
deriving DecidableEq, Repr

/-- The `Key` enum of `keypad.rs` is a fieldless `repr(u8)` enum with values
`0x0`–`0xF`; it embeds as the `Nat`s below 16. -/
abbrev Key := Nat

/-- `impl TryFrom<u8> for Key`: the 16 match arms `0x0..=0xF` map a byte to
the key of the same value; anything else is `Err(VMError::UnknownKey)`. -/
def Key.tryFrom (value : Nat) : Except VMError Key :=
  if value < 16 then .ok value else .error (.UnknownKey value)

/-- `Keypad` of `keypad.rs`: 16 key states plus the wait sub-state. -/
structure Keypad where
  state : List KeyState
  wait_state : KeyWait
deriving DecidableEq, Repr

/-- `Keypad::new`. -/
def Keypad.new : Keypad :=
  ⟨List.replicate 16 .NotPressed, .NotWaiting⟩

/-- `Keypad::is_waiting`. -/
def Keypad.is_waiting (k : Keypad) : Bool :=
  match k.wait_state with
  | .NotWaiting => false
  | .WaitingForPress _ => true
  | .WaitingForRelease _ => true

/-- `Keypad::set_wait`. -/
def Keypad.set_wait (k : Keypad) (w : KeyWait) : Keypad :=
  { k with wait_state := w }

/-- `impl Index<Key> for Keypad`: `&self.state[index as usize]`. -/
def Keypad.keyState (k : Keypad) (key : Key) : KeyState :=
  k.state.getD key .NotPressed

/-- `impl IndexMut<Key> for Keypad` used as `self.keypad[key] = s`. -/
def Keypad.setKey (k : Keypad) (key : Key) (s : KeyState) : Keypad :=
  { k with state := k.state.set key s }

/-- `NUM_REGISTERS` of `vm.rs`. -/
def NUM_REGISTERS : Nat := 16

/-- `ROM_START` of `vm.rs`. -/
def ROM_START : Nat := 0x200

/-- `Registers` of `vm.rs`: `data: [u8; 16]` plus the program counter. -/
structure Registers where
  data : List Nat
  pc : Nat
deriving DecidableEq, Repr

/-- `Registers::new`: zeroed registers, `pc = ROM_START`. -/
def Registers.new : Registers :=
  ⟨List.replicate NUM_REGISTERS 0, ROM_START⟩

/-- `impl Index<RegNum> for Registers`: `&self.data[index as usize]`, which
aborts when `index ≥ 16`.  `Registers.index` keeps that partiality (`none`
models the abort); the in-bounds theorem for decoded operands at the end of
this file shows `execute` never hits it on decoded operands. -/
def Registers.index (r : Registers) (i : Nat) : Option Nat :=
  r.data.get? i

/-- Total read used inside `execute`, where all indices are decoded operands
(< 16, see the in-bounds theorem for decoded operands) or the literals
`0x0`/`0xF`. -/
def Registers.get (r : Registers) (i : Nat) : Nat :=
  r.data.getD i 0

/-- `impl IndexMut<RegNum> for Registers` used as `self.registers[i] = v`. -/
def Registers.set (r : Registers) (i v : Nat) : Registers :=
  { r with data := r.data.set i v }

/-- The `Instruction` enum of `instructions.rs` (named fields flattened to
positional arguments; note the source has a single `Sub` variant used for
both `8XY5` and, with swapped operands, `8XY7`). -/
inductive Instruction where
  | Unknown (code : Nat)
  | ClearScreen
  | ExitSubroutine
  | Jump (addr : Nat)
  | CallSubroutine (addr : Nat)
  | SkipValEqual (reg val : Nat)
  | SkipValNotEqual (reg val : Nat)
  | SkipRegEqual (reg1 reg2 : Nat)
  | SetVal (reg val : Nat)
  | AddVal (reg val : Nat)
  | SetReg (reg1 reg2 : Nat)
  | OR (reg1 reg2 : Nat)
  | AND (reg1 reg2 : Nat)
  | XOR (reg1 reg2 : Nat)
  | Add (reg1 reg2 : Nat)
  | Sub (reg1 reg2 : Nat)
  | ShiftRight (reg1 reg2 : Nat)
  | ShiftLeft (reg1 reg2 : Nat)
  | SkipRegNotEqual (reg1 reg2 : Nat)
  | SetIndex (val : Nat)
  | JumpOffset (val : Nat)
  | Random (reg val : Nat)
  | Display (reg1 reg2 height : Nat)
  | SkipIfPressed (reg : Nat)
  | SkipNotPressed (reg : Nat)
  | GetDelayTimer (reg : Nat)
  | SetDelayTimer (reg : Nat)
  | SetSoundTimer (reg : Nat)
  | AddToIndex (reg : Nat)
  | GetKey (reg : Nat)
  | FontChar (reg : Nat)
  | BinDecConv (reg : Nat)
  | StoreMem (to_reg : Nat)
  | LoadMem (to_reg : Nat)
deriving DecidableEq, Repr

/-- `d_val` of `instructions.rs`: `instr & 0x00FF`. -/
def d_val (instr : Nat) : Nat := instr &&& 0x00FF

/-- `d_val16` of `instructions.rs`: `instr & 0x0FFF`. -/
def d_val16 (instr : Nat) : Nat := instr &&& 0x0FFF

/-- `d_reg1` of `instructions.rs`: `(instr & 0x0F00) >> 8`. -/
def d_reg1 (instr : Nat) : Nat := (instr &&& 0x0F00) >>> 8

/-- `d_reg2` of `instructions.rs`: `(instr & 0x00F0) >> 4`. -/
def d_reg2 (instr : Nat) : Nat := (instr &&& 0x00F0) >>> 4

/-- `Instruction::decode` of `instructions.rs`. -/
def Instruction.decode (instr : Nat) : Instruction :=
  match (instr &&& 0xF000) >>> 12 with
  | 0x0 =>
    match instr &&& 0x00FF with
    | 0xE0 => .ClearScreen
    | 0xEE => .ExitSubroutine
    | _ => .Unknown instr
  | 0x1 => .Jump (instr &&& 0x0FFF)
  | 0x2 => .CallSubroutine (instr &&& 0x0FFF)
  | 0x3 => .SkipValEqual (d_reg1 instr) (d_val instr)
  | 0x4 => .SkipValNotEqual (d_reg1 instr) (d_val instr)
  | 0x5 => .SkipRegEqual (d_reg1 instr) (d_reg2 instr)
  | 0x6 => .SetVal (d_reg1 instr) (d_val instr)
  | 0x7 => .AddVal (d_reg1 instr) (d_val instr)
  | 0x8 =>
    match instr &&& 0x000F with
    | 0x0 => .SetReg (d_reg1 instr) (d_reg2 instr)
    | 0x1 => .OR (d_reg1 instr) (d_reg2 instr)
    | 0x2 => .AND (d_reg1 instr) (d_reg2 instr)
    | 0x3 => .XOR (d_reg1 instr) (d_reg2 instr)
    | 0x4 => .Add (d_reg1 instr) (d_reg2 instr)
    | 0x5 => .Sub (d_reg1 instr) (d_reg2 instr)
    | 0x6 => .ShiftRight (d_reg1 instr) (d_reg2 instr)
    | 0x7 => .Sub (d_reg2 instr) (d_reg1 instr)
    | 0xE => .ShiftLeft (d_reg1 instr) (d_reg2 instr)
    | _ => .Unknown instr
  | 0x9 => .SkipRegNotEqual (d_reg1 instr) (d_reg2 instr)
  | 0xA => .SetIndex (d_val16 instr)
  | 0xB => .JumpOffset (d_val16 instr)
  | 0xC => .Random (d_reg1 instr) (d_val instr)
  | 0xD => .Display (d_reg1 instr) (d_reg2 instr) (instr &&& 0x000F)
  | 0xE =>
    match instr &&& 0x00FF with
    | 0x9E => .SkipIfPressed (d_reg1 instr)
    | 0xA1 => .SkipNotPressed (d_reg1 instr)
    | _ => .Unknown instr
  | 0xF =>
    match instr &&& 0x00FF with
    | 0x07 => .GetDelayTimer (d_reg1 instr)
    | 0x15 => .SetDelayTimer (d_reg1 instr)
    | 0x18 => .SetSoundTimer (d_reg1 instr)
    | 0x1E => .AddToIndex (d_reg1 instr)
    | 0x0A => .GetKey (d_reg1 instr)
    | 0x29 => .FontChar (d_reg1 instr)
    | 0x33 => .BinDecConv (d_reg1 instr)
    | 0x55 => .StoreMem (d_reg1 instr)
    | 0x65 => .LoadMem (d_reg1 instr)
    | _ => .Unknown instr
  | _ => .Unknown instr

/-- The register-file indices that the `execute` arms of `vm.rs` access via
the decoded operand fields of each variant (the `StoreMem`/`LoadMem` loops
run over `0..=to_reg`, all of which are at most the listed operand). -/
def Instruction.regOperands : Instruction → List Nat
  | .Unknown _ => []
  | .ClearScreen => []
  | .ExitSubroutine => []
  | .Jump _ => []
  | .CallSubroutine _ => []
  | .SkipValEqual r _ => [r]
  | .SkipValNotEqual r _ => [r]
  | .SkipRegEqual a b => [a, b]
  | .SetVal r _ => [r]
  | .AddVal r _ => [r]
  | .SetReg a b => [a, b]
  | .OR a b => [a, b]
  | .AND a b => [a, b]
  | .XOR a b => [a, b]
  | .Add a b => [a, b]
  | .Sub a b => [a, b]
  | .ShiftRight a b => [a, b]
  | .ShiftLeft a b => [a, b]
  | .SkipRegNotEqual a b => [a, b]
  | .SetIndex _ => []
  | .JumpOffset _ => []
  | .Random r _ => [r]
  | .Display a b _ => [a, b]
  | .SkipIfPressed r => [r]
  | .SkipNotPressed r => [r]
  | .GetDelayTimer r => [r]
  | .SetDelayTimer r => [r]
  | .SetSoundTimer r => [r]
  | .AddToIndex r => [r]
  | .GetKey r => [r]
  | .FontChar r => [r]
  | .BinDecConv r => [r]
  | .StoreMem r => [r]
  | .LoadMem r => [r]

/-- The `Chip8VM` struct of `vm.rs`.  Its `stack` field is the spec-modelled
`VStack` (see there): `vm.rs` is written against a `Result`-returning stack
that is absent from the sources. -/
structure Chip8VM where
  memory : Memory
  display : Display
  registers : Registers
  stack : VStack
  keypad : Keypad
  index_register : Nat
  delay_timer : Nat
  sound_timer : Nat
deriving DecidableEq, Repr

/-- `Chip8VM::new`. -/
def Chip8VM.new : Chip8VM :=
  { memory := Memory.new
    display := Display.new
    registers := Registers.new
    stack := VStack.deflt
    keypad := Keypad.new
    index_register := 0
    delay_timer := 0
    sound_timer := 0 }

/-- `Chip8VM::tick_timers`: decrement each timer, floored at zero. -/
def Chip8VM.tick_timers (vm : Chip8VM) : Chip8VM :=
  { vm with
    delay_timer := if vm.delay_timer = 0 then 0 else vm.delay_timer - 1
    sound_timer := if vm.sound_timer = 0 then 0 else vm.sound_timer - 1 }

/-- The inner bit loop of the `Display` arm of `Chip8VM::execute`:
`for bit in (0..8).rev()` with `x_offset` running `0..8` (so `bit = 7 - x_offset`),
`b = sprite_byte >> bit & 1`, `x = x_coord + x_offset` (a `u8` addition, hence
`% 256`), `p = display.get(x, y)`, and
`if b == 1 && p.unwrap() { set(x, y, false); vf = 1 } else { set(x, y, b == 1) }`.
`p.unwrap()` is only evaluated when `b == 1` (short-circuit `&&`); on an `Err`
it panics, modelled as `VMError.Panic`.  The accumulator carries the display
and the `vf` flag. -/
def drawRow (d : Display) (vf sprite_byte x_coord y : Nat) :
    Except VMError (Display × Nat) :=
  (List.range 8).foldlM
    (fun acc x_offset =>
      let bit := 7 - x_offset
      let b := (sprite_byte >>> bit) &&& 1
      let x := (x_coord + x_offset) % 256
      if b = 1 then
        match acc.1.get x y with
        | .error msg => .error (.Panic msg)
        | .ok p =>
          if p then .ok (acc.1.set x y false, 1)
          else .ok (acc.1.set x y true, acc.2)
      else
        .ok (acc.1.set x y false, acc.2))
    (d, vf)

/-- The outer row loop of the `Display` arm: `for row in 0..height`, reading
`sprite_byte = memory.read(ireg)` with `ireg` starting at the index register
and incremented once per row, and `y = y_coord + row` (a `u8` addition). -/
def drawSprite (mem : Memory) (d : Display) (x_coord y_coord height ireg : Nat) :
    Except VMError (Display × Nat) :=
  (List.range height).foldlM
    (fun acc row =>
      drawRow acc.1 acc.2 (mem.read (ireg + row)) x_coord ((y_coord + row) % 256))
    (d, 0)

/-- `Chip8VM::execute` of `vm.rs`, arm by arm.  `randByte` is the oracle for
`rand::thread_rng().gen_range(0..=255)` in the `Random` arm.  The `Sub` arm
carries the `SubLeft` body of `vm.rs` (`Vx = Vx - Vy`, `VF = Vx >= Vy`):
`vm.rs`'s enum splits `Sub` into `SubLeft`/`SubRight`, but the decoder of
`instructions.rs` only ever produces `Sub`, encoding `8XY7` by swapping the
operands.  The `FontChar` arm of the source is an empty TODO block. -/
def Chip8VM.execute (vm : Chip8VM) (instr : Instruction) (randByte : Nat) :
    Except VMError Chip8VM :=
  match instr with
  | .Unknown code => .error (.UnknownInstruction code)
  | .ClearScreen => .ok { vm with display := vm.display.clear }
  | .ExitSubroutine =>
    match vm.stack.pop with
    | .ok (addr, st) =>
      .ok { vm with registers := { vm.registers with pc := addr }, stack := st }
    | .error _ => .ok vm
  | .Jump addr => .ok { vm with registers := { vm.registers with pc := addr } }
  | .CallSubroutine addr =>
    match vm.stack.push (vm.registers.pc % 65536) with
    | .error e => .error e
    | .ok st =>
      .ok { vm with stack := st, registers := { vm.registers with pc := addr } }
  | .SkipValEqual vx val =>
    if val = vm.registers.get vx then
      .ok { vm with registers := { vm.registers with pc := vm.registers.pc + 2 } }
    else .ok vm
  | .SkipValNotEqual vx val =>
    if val ≠ vm.registers.get vx then
      .ok { vm with registers := { vm.registers with pc := vm.registers.pc + 2 } }
    else .ok vm
  | .SkipRegEqual vx vy =>
    if vm.registers.get vx = vm.registers.get vy then
      .ok { vm with registers := { vm.registers with pc := vm.registers.pc + 2 } }
    else .ok vm
  | .SetVal vx val => .ok { vm with registers := vm.registers.set vx val }
  | .AddVal vx val =>
    .ok { vm with registers :=
      vm.registers.set vx ((vm.registers.get vx + val) % 256) }
  | .SetReg vx vy =>
    .ok { vm with registers := vm.registers.set vx (vm.registers.get vy) }
  | .OR vx vy =>
    .ok { vm with registers :=
      vm.registers.set vx (vm.registers.get vx ||| vm.registers.get vy) }
  | .AND vx vy =>
    .ok { vm with registers :=
      vm.registers.set vx (vm.registers.get vx &&& vm.registers.get vy) }
  | .XOR vx vy =>
    .ok { vm with registers :=
      vm.registers.set vx (vm.registers.get vx ^^^ vm.registers.get vy) }
  | .Add vx vy =>
    let vy_val := vm.registers.get vy
    let vx_val := vm.registers.get vx
    let r1 := vm.registers.set vx ((vm.registers.get vx + vy_val) % 256)
    if 255 < vx_val + vy_val then
      .ok { vm with registers := r1.set 0xF 1 }
    else
      .ok { vm with registers := r1.set 0xF 0 }
  | .Sub vx vy =>
    let vx_val := vm.registers.get vx
    let vy_val := vm.registers.get vy
    let r1 := vm.registers.set vx (((vx_val + 256) - vy_val) % 256)
    .ok { vm with registers := r1.set 0xF (if vy_val ≤ vx_val then 1 else 0) }
  | .ShiftRight vx _ =>
    let reg_val := vm.registers.get vx
    let r1 := vm.registers.set vx (reg_val >>> 1)
    .ok { vm with registers := r1.set 0xF (reg_val &&& 1) }
  | .ShiftLeft vx _ =>
    let reg_val := vm.registers.get vx
    let r1 := vm.registers.set vx ((reg_val <<< 1) % 256)
    .ok { vm with registers := r1.set 0xF ((reg_val >>> 7) &&& 1) }
  | .SkipRegNotEqual vx vy =>
    if vm.registers.get vx ≠ vm.registers.get vy then
      .ok { vm with registers := { vm.registers with pc := vm.registers.pc + 2 } }
    else .ok vm
  | .SetIndex val => .ok { vm with index_register := val }
  | .JumpOffset val =>
    .ok { vm with registers :=
      { vm.registers with pc := (vm.registers.get 0x0 + val) &&& 0xFFF } }
  | .Random vx val =>
    .ok { vm with registers := vm.registers.set vx ((randByte % 256) &&& val) }
  | .Display vx vy height =>
    let x_coord := vm.registers.get vx
    let y_coord := vm.registers.get vy
    match drawSprite vm.memory vm.display x_coord y_coord height vm.index_register with
    | .error e => .error e
    | .ok (d, vf) =>
      .ok { vm with display := d, registers := vm.registers.set 0xF vf }
  | .SkipIfPressed vx =>
    match Key.tryFrom (vm.registers.get vx) with
    | .error e => .error e
    | .ok key =>
      if vm.keypad.keyState key = .Pressed then
        .ok { vm with registers := { vm.registers with pc := vm.registers.pc + 2 } }
      else .ok vm
  | .SkipNotPressed vx =>
    match Key.tryFrom (vm.registers.get vx) with
    | .error e => .error e
    | .ok key =>
      if vm.keypad.keyState key = .NotPressed then
        .ok { vm with registers := { vm.registers with pc := vm.registers.pc + 2 } }
      else .ok vm
  | .GetDelayTimer vx =>
    .ok { vm with registers := vm.registers.set vx vm.delay_timer }
  | .SetDelayTimer vx => .ok { vm with delay_timer := vm.registers.get vx }
  | .SetSoundTimer vx => .ok { vm with sound_timer := vm.registers.get vx }
  | .AddToIndex vx =>
    .ok { vm with index_register := vm.index_register + vm.registers.get vx }
  | .GetKey vx =>
    if vm.keypad.is_waiting then .ok vm
    else
      .ok { vm with
        registers := { vm.registers with pc := vm.registers.pc - 2 }
        keypad := vm.keypad.set_wait (.WaitingForPress vx) }
  | .FontChar _ => .ok vm
  | .BinDecConv vx =>
    let val := vm.registers.get vx
    let idx := vm.index_register
    let m1 := vm.memory.write idx (val / 100)
    let m2 := m1.write (idx + 1) (val / 10 % 10)
    let m3 := m2.write (idx + 2) (val % 10)
    .ok { vm with memory := m3 }
  | .StoreMem to_reg =>
    let m := (List.range (to_reg + 1)).foldl
      (fun m vn => m.write (vm.index_register + vn) (vm.registers.get vn))
      vm.memory
    .ok { vm with memory := m }
  | .LoadMem to_reg =>
    let r := (List.range (to_reg + 1)).foldl
      (fun r vn => r.set vn (vm.memory.read (vm.index_register + vn)))
      vm.registers
    .ok { vm with registers := r }

/-- `Chip8VM::run_cycle` of `vm.rs`: a no-op while the keypad is waiting,
otherwise fetch the big-endian word at `pc`, advance `pc` by 2, decode and
execute. -/
def Chip8VM.run_cycle (vm : Chip8VM) (randByte : Nat) : Except VMError Chip8VM :=
  if vm.keypad.is_waiting then
    .ok vm
  else
    let op1 := vm.memory.read vm.registers.pc
    let op2 := vm.memory.read (vm.registers.pc + 1)
    let op := (op1 <<< 8) ||| op2
    let vm' := { vm with registers := { vm.registers with pc := vm.registers.pc + 2 } }
    vm'.execute (Instruction.decode op) randByte

/-- `Chip8VM::handle_key` of `vm.rs`: ignore invalid key codes; record the
press state; then drive the wait sub-state machine.  Note that the source
matches only on `wait_state` — `is_pressed` plays no role in the wait
transitions. -/
def Chip8VM.handle_key (vm : Chip8VM) (key_code : Nat) (is_pressed : Bool) :
    Chip8VM :=
  match Key.tryFrom key_code with
  | .error _ => vm
  | .ok key =>
    let ks : KeyState := if is_pressed then .Pressed else .NotPressed
    let vm1 := { vm with keypad := vm.keypad.setKey key ks }
    match vm1.keypad.wait_state with
    | .WaitingForPress vx =>
      { vm1 with
        registers := vm1.registers.set vx key_code
        keypad := vm1.keypad.set_wait (.WaitingForRelease key_code) }
    | .WaitingForRelease wait_key_code =>
      if key_code = wait_key_code then
        { vm1 with
          keypad := vm1.keypad.set_wait .NotWaiting
          registers := { vm1.registers with pc := vm1.registers.pc + 2 } }
      else vm1
    | .NotWaiting => vm1

instance {ε α : Type} [DecidableEq ε] [DecidableEq α] : DecidableEq (Except ε α) :=
  fun a b =>
    match a, b with
    | .ok x, .ok y => decidable_of_iff (x = y) (by simp)
    | .error x, .error y => decidable_of_iff (x = y) (by simp)
    | .ok _, .error _ => isFalse (fun h => Except.noConfusion h)
    | .error _, .ok _ => isFalse (fun h => Except.noConfusion h)

theorem getD_set_self {α : Type} (l : List α) (i : Nat) (v dflt : α)
    (h : i < l.length) : (l.set i v).getD i dflt = v := by
  rw [List.getD_eq_getElem?_getD, List.getElem?_set_eq_of_lt _ h]
  rfl

theorem getD_set_ne {α : Type} (l : List α) (i j : Nat) (v dflt : α)
    (h : i ≠ j) : (l.set i v).getD j dflt = l.getD j dflt := by
  rw [List.getD_eq_getElem?_getD, List.getElem?_set_ne h, ← List.getD_eq_getElem?_getD]

theorem mask31_eq_self : ∀ y, y < 32 → y &&& 31 = y := by decide

theorem mask63_eq_self : ∀ x, x < 64 → x &&& 63 = x := by decide

theorem d_reg1_lt (w : Nat) : d_reg1 w < 16 := by
  unfold d_reg1
  have h1 : w &&& 0x0F00 ≤ 0x0F00 := Nat.and_le_right
  have h2 : (w &&& 0x0F00) >>> 8 ≤ 0x0F00 >>> 8 := by
    simp only [Nat.shiftRight_eq_div_pow]
    exact Nat.div_le_div_right h1
  omega

theorem d_reg2_lt (w : Nat) : d_reg2 w < 16 := by
  unfold d_reg2
  have h1 : w &&& 0x00F0 ≤ 0x00F0 := Nat.and_le_right
  have h2 : (w &&& 0x00F0) >>> 4 ≤ 0x00F0 >>> 4 := by
    simp only [Nat.shiftRight_eq_div_pow]
    exact Nat.div_le_div_right h1
  omega

set_option maxRecDepth 10000 in
/-- Claim C1 (code bug, evaluated at the failing input): the `Display` arm
does not composite XOR-style.  Fresh VM with `I = 0x300`, `mem[0x300] = 0x80`
(one sprite row whose only 1-bit is the leftmost), `V0 = V1 = 0`, and pixel
`(1, 0)` already on.  Executing `Display(0, 1, 1)` draws the row at `(0, 0)`:
the 1-bit turns pixel `(0, 0)` on, but the 0-bit at column 1 — which the claim
says leaves the pixel unchanged — overwrites pixel `(1, 0)` with `false`
(`set(x, y, b == 1)` in the else branch), and `VF` stays 0 even though a lit
pixel was turned off, contradicting the claim and the source's own comment
that `vf` flips whenever pixels are turned off. -/
theorem c1_display_zero_bit_clears_pixel :
    ((({ Chip8VM.new with
        memory := Memory.new.write 0x300 0x80
        index_register := 0x300
        display := Display.new.set 1 0 true } : Chip8VM).execute
          (.Display 0 1 1) 0).toOption.map
      (fun v => (v.display.get 0 0, v.display.get 1 0, v.registers.get 0xF)))
      = some (.ok true, .ok false, 0) := by
  decide

set_option maxRecDepth 10000 in
/-- Claim C2, counterexample: `Display::set(66, 5, true)` does not wrap to
pixel `(2, 5)` — it is discarded entirely, so the subsequent
`get(2, 5)` returns `Ok(false)`, not `true` as the claim states; and
`get(66, 5)` is an error, not a success after wrapping. -/
theorem c2_set_oob_is_discarded :
    Display.new.set 66 5 true = Display.new ∧
    (Display.new.set 66 5 true).get 2 5 = .ok false ∧
    Display.new.get 66 5 = .error "pixel out of range" := by
  decide

/-- Claim C2, amended: `Display::set` clips instead of wrapping — for
`x ≥ 64` or `y ≥ 32` the call returns without writing anything and `get`
returns an error; for in-range coordinates the power-of-two masks are the
identity and `set`/`get` behave as direct pixel access. -/
theorem c2_display_clipping_semantics (d : Display) (x y : Nat) (v : Bool)
    (hwf : d.WF) :
    ((64 ≤ x ∨ 32 ≤ y) → d.set x y v = d ∧ d.get x y = .error "pixel out of range") ∧
    (x < 64 → y < 32 → (d.set x y v).get x y = .ok v) := by
  obtain ⟨hlen, hrow⟩ := hwf
  constructor
  · intro hoob
    have hguard : d.pixels.length ≤ y ∨ (d.pixels.getD y []).length ≤ x := by
      rcases hoob with hx | hy
      · by_cases hy' : y < 32
        · right
          rw [hrow y hy']
          exact hx
        · left
          omega
      · left
        omega
    constructor
    · simp only [Display.set, if_pos hguard]
    · simp only [Display.get, if_pos hguard]
  · intro hx hy
    have hguard : ¬(d.pixels.length ≤ y ∨ (d.pixels.getD y []).length ≤ x) := by
      push_neg
      exact ⟨by omega, by rw [hrow y hy]; omega⟩
    have hrl : (d.pixels.getD y []).length = 64 := hrow y hy
    have h31 : Display.HEIGHT - 1 = 31 := rfl
    have h63 : Display.WIDTH - 1 = 63 := rfl
    simp only [Display.set, h31, h63, if_neg hguard, mask31_eq_self y hy, mask63_eq_self x hx]
    have hlen2 : (d.pixels.set y ((d.pixels.getD y []).set x v)).length = 32 := by
      rw [List.length_set, hlen]
    have hgy : (d.pixels.set y ((d.pixels.getD y []).set x v)).getD y [] = (d.pixels.getD y []).set x v :=
      getD_set_self _ y _ [] (by omega)
    have hguard2 : ¬((d.pixels.set y ((d.pixels.getD y []).set x v)).length ≤ y ∨ ((d.pixels.set y ((d.pixels.getD y []).set x v)).getD y []).length ≤ x) := by
      push_neg
      rw [hlen2, hgy, List.length_set, hrl]
      exact ⟨by omega, by omega⟩
    simp only [Display.get, if_neg hguard2]
    rw [hgy]
    rw [getD_set_self _ x _ false (by rw [hrl]; omega)]

/-- Witness for the amended C2 theorem at the concrete out-of-range call
`set(66, 5, true)` on a fresh display. -/
theorem c2_display_clipping_semantics_witness :
    Display.new.set 66 5 true = Display.new ∧
    Display.new.get 66 5 = .error "pixel out of range" :=
  (c2_display_clipping_semantics Display.new 66 5 true (by decide)).1 (by decide)

/-- Claim C3 (confirmed): after `run_cycle` fetches and executes
`GetKey(vx)` (decoded from the word at `pc = P`), the VM is parked at `P` in
`WaitingForPress(vx)`; every further `run_cycle` is a no-op returning the
state unchanged; delivering `handle_key(code, true)` then
`handle_key(code, false)` for the same valid `code` leaves register `vx`
equal to `code`, the wait state back at `NotWaiting`, and `pc = P + 2`, the
instruction following the `GetKey` opcode — the instruction is retired
exactly once, after the press-then-release completes. -/
theorem c3_getkey_wait_protocol (vm : Chip8VM) (vx code P r1 r2 : Nat)
    (hw : vm.keypad.wait_state = .NotWaiting)
    (hpc : vm.registers.pc = P)
    (hlen : vm.registers.data.length = 16)
    (hdec : Instruction.decode ((vm.memory.read P <<< 8) ||| vm.memory.read (P + 1)) = .GetKey vx)
    (hvx : vx < 16) (hcode : code < 16) :
    ∃ vm1, vm.run_cycle r1 = .ok vm1 ∧
      vm1.keypad.wait_state = .WaitingForPress vx ∧
      vm1.registers.pc = P ∧
      vm1.run_cycle r2 = .ok vm1 ∧
      (vm1.handle_key code true).keypad.wait_state = .WaitingForRelease code ∧
      (vm1.handle_key code true).run_cycle r2 = .ok (vm1.handle_key code true) ∧
      ((vm1.handle_key code true).handle_key code false).registers.get vx = code ∧
      ((vm1.handle_key code true).handle_key code false).registers.pc = P + 2 ∧
      ((vm1.handle_key code true).handle_key code false).keypad.wait_state = .NotWaiting := by
  subst hpc
  have hiw : vm.keypad.is_waiting = false := by
    simp [Keypad.is_waiting, hw]
  have hstep : vm.run_cycle r1 = .ok { vm with keypad := vm.keypad.set_wait (.WaitingForPress vx) } := by
    simp only [Chip8VM.run_cycle, hiw, Bool.false_eq_true, if_false, hdec, Chip8VM.execute,
      Keypad.is_waiting, hw, Keypad.set_wait]
    simp [Nat.add_sub_cancel]
  refine ⟨_, hstep, rfl, rfl, ?_, ?_, ?_, ?_, ?_, ?_⟩
  · simp [Chip8VM.run_cycle, Keypad.is_waiting, Keypad.set_wait]
  · simp only [Chip8VM.handle_key, Key.tryFrom, if_pos hcode, Keypad.setKey, Keypad.set_wait]
  · simp [Chip8VM.handle_key, Key.tryFrom, hcode, Keypad.setKey, Keypad.set_wait,
      Chip8VM.run_cycle, Keypad.is_waiting]
  · simp only [Chip8VM.handle_key, Key.tryFrom, if_pos hcode, Keypad.setKey, Keypad.set_wait,
      Registers.set, Registers.get]
    exact getD_set_self _ vx _ _ (by omega)
  · simp [Chip8VM.handle_key, Key.tryFrom, hcode, Keypad.setKey, Keypad.set_wait,
      Registers.set, Registers.get]
  · simp [Chip8VM.handle_key, Key.tryFrom, hcode, Keypad.setKey, Keypad.set_wait]

set_option maxRecDepth 10000 in
/-- Witness for the C3 theorem: a fresh VM whose ROM area holds the single
opcode `0xF50A` (`GetKey(5)`) at `0x200`, with key code 7 pressed and
released. -/
theorem c3_getkey_wait_protocol_witness :
    ∃ vm1, ({ Chip8VM.new with memory := (Memory.new.write 0x200 0xF5).write 0x201 0x0A } : Chip8VM).run_cycle 0 = .ok vm1 ∧
      vm1.keypad.wait_state = .WaitingForPress 5 ∧
      vm1.registers.pc = 0x200 ∧
      vm1.run_cycle 0 = .ok vm1 ∧
      (vm1.handle_key 7 true).keypad.wait_state = .WaitingForRelease 7 ∧
      (vm1.handle_key 7 true).run_cycle 0 = .ok (vm1.handle_key 7 true) ∧
      ((vm1.handle_key 7 true).handle_key 7 false).registers.get 5 = 7 ∧
      ((vm1.handle_key 7 true).handle_key 7 false).registers.pc = 0x200 + 2 ∧
      ((vm1.handle_key 7 true).handle_key 7 false).keypad.wait_state = .NotWaiting :=
  c3_getkey_wait_protocol
    { Chip8VM.new with memory := (Memory.new.write 0x200 0xF5).write 0x201 0x0A }
    5 7 0x200 0 0 (by decide) (by decide) (by decide) (by decide) (by decide) (by decide)

/-- Claim C4, counterexample: in state `WaitingForRelease(5)` a repeated
*press* of key 5 — which the claim says changes nothing — completes the wait
(`NotWaiting`) and advances `pc` from `0x200` to `0x202`; and in state
`WaitingForPress(3)` a *release* event for key 5 — which the claim says does
not trigger the transition — moves the wait state to `WaitingForRelease(5)`
and stores 5 in register 3. -/
theorem c4_press_completes_release_wait :
    (({ Chip8VM.new with keypad := Keypad.new.set_wait (.WaitingForRelease 5) } : Chip8VM).handle_key 5 true).keypad.wait_state = .NotWaiting ∧
    (({ Chip8VM.new with keypad := Keypad.new.set_wait (.WaitingForRelease 5) } : Chip8VM).handle_key 5 true).registers.pc = 0x202 ∧
    (({ Chip8VM.new with keypad := Keypad.new.set_wait (.WaitingForPress 3) } : Chip8VM).handle_key 5 false).keypad.wait_state = .WaitingForRelease 5 ∧
    (({ Chip8VM.new with keypad := Keypad.new.set_wait (.WaitingForPress 3) } : Chip8VM).handle_key 5 false).registers.get 3 = 5 := by
  decide

/-- Claim C4, amended: `handle_key` drives the wait machine on *any* event
for a valid key code, never consulting `is_pressed`: in `WaitingForPress(reg)`
any event for a valid `code` moves to `WaitingForRelease(code)` and sets
register `reg` to `code` (pc untouched); in `WaitingForRelease(c)` any event
for exactly `c` returns to `NotWaiting` and advances `pc` by 2 (registers
untouched), while events for a different valid key leave wait state,
registers and `pc` unchanged. -/
theorem c4_handle_key_transitions (vm : Chip8VM) (reg c code : Nat) (isP : Bool)
    (hcode : code < 16) (hreg : reg < 16) (hlen : vm.registers.data.length = 16) :
    (vm.keypad.wait_state = .WaitingForPress reg →
      ((vm.handle_key code isP).keypad.wait_state = .WaitingForRelease code ∧
       (vm.handle_key code isP).registers.get reg = code ∧
       (vm.handle_key code isP).registers.pc = vm.registers.pc)) ∧
    (vm.keypad.wait_state = .WaitingForRelease c →
      ((code = c → (vm.handle_key code isP).keypad.wait_state = .NotWaiting ∧
          (vm.handle_key code isP).registers.pc = vm.registers.pc + 2 ∧
          (vm.handle_key code isP).registers.data = vm.registers.data) ∧
       (code ≠ c → (vm.handle_key code isP).keypad.wait_state = .WaitingForRelease c ∧
          (vm.handle_key code isP).registers = vm.registers))) := by
  constructor
  · intro hw
    simp only [Chip8VM.handle_key, Key.tryFrom, if_pos hcode, Keypad.setKey, hw,
      Keypad.set_wait, Registers.set, Registers.get]
    refine ⟨trivial, ?_, trivial⟩
    exact getD_set_self _ reg _ _ (by omega)
  · intro hw
    constructor
    · intro heq
      simp only [Chip8VM.handle_key, Key.tryFrom, if_pos hcode, Keypad.setKey, hw,
        Keypad.set_wait, Registers.set, Registers.get, if_pos heq]
      exact ⟨trivial, trivial, trivial⟩
    · intro hne
      simp only [Chip8VM.handle_key, Key.tryFrom, if_pos hcode, Keypad.setKey, hw,
        Keypad.set_wait, Registers.set, Registers.get, if_neg hne]
      exact ⟨trivial, trivial⟩

/-- Witness for the amended C4 theorem: a release event for key 5 while in
`WaitingForPress(3)` fires the transition and stores 5 in register 3. -/
theorem c4_handle_key_transitions_witness :
    (({ Chip8VM.new with keypad := Keypad.new.set_wait (.WaitingForPress 3) } : Chip8VM).handle_key 5 false).keypad.wait_state = .WaitingForRelease 5 ∧
    (({ Chip8VM.new with keypad := Keypad.new.set_wait (.WaitingForPress 3) } : Chip8VM).handle_key 5 false).registers.get 3 = 5 ∧
    (({ Chip8VM.new with keypad := Keypad.new.set_wait (.WaitingForPress 3) } : Chip8VM).handle_key 5 false).registers.pc = ({ Chip8VM.new with keypad := Keypad.new.set_wait (.WaitingForPress 3) } : Chip8VM).registers.pc :=
  (c4_handle_key_transitions
    { Chip8VM.new with keypad := Keypad.new.set_wait (.WaitingForPress 3) }
    3 0 5 false (by decide) (by decide) (by decide)).1 rfl

/-- Claim C5 (code bug, evaluated at the failing input): the in-tree
`Stack::push`/`Stack::pop` of `memory.rs` do not return
`StackOverflow`/`StackUnderflow` results — they `panic!` (modelled as
`none`): with `max_size = 1`, the first push succeeds, the second push
panics, and `pop` on the empty stack panics. -/
theorem c5_stack_panics_not_result :
    (Stack.new 1).push 5 = some ⟨[5], 1, 1⟩ ∧
    ((Stack.new 1).push 5).bind (fun s => s.push 6) = none ∧
    (Stack.new 1).pop = none := by
  decide

/-- Claim C6, counterexample: executing `ExitSubroutine` on a fresh VM (empty
stack) returns `Ok` with the VM unchanged — the `StackUnderflow` from `pop`
is swallowed by `if let Ok(addr) = self.stack.pop()`, not surfaced as the
claim states. -/
theorem c6_exit_subroutine_swallows_underflow :
    Chip8VM.new.execute .ExitSubroutine 0 = .ok Chip8VM.new := rfl

/-- Claim C6, amended: `CallSubroutine` with a full stack surfaces
`StackOverflow` from `execute` (via the `?` operator), but `ExitSubroutine`
with an empty stack silently ignores the underflow: `execute` returns `Ok`
and leaves the VM — including the program counter — unchanged. -/
theorem c6_call_overflow_exit_swallow (vm : Chip8VM) (addr r : Nat) :
    (vm.stack.max_size ≤ vm.stack.data.length →
      vm.execute (.CallSubroutine addr) r = .error .StackOverflow) ∧
    (vm.stack.data = [] → vm.execute .ExitSubroutine r = .ok vm) := by
  constructor
  · intro h
    simp [Chip8VM.execute, VStack.push, h]
  · intro h
    simp [Chip8VM.execute, VStack.pop, h]

/-- Witness for the amended C6 theorem: a VM whose stack holds 1 entry at
capacity 1 overflows on `CallSubroutine`; a fresh VM's `ExitSubroutine`
returns `Ok` unchanged. -/
theorem c6_call_overflow_exit_swallow_witness :
    ({ Chip8VM.new with stack := ⟨[0x123], 1⟩ } : Chip8VM).execute (.CallSubroutine 0x300) 0 = .error .StackOverflow ∧
    Chip8VM.new.execute .ExitSubroutine 0 = .ok Chip8VM.new :=
  ⟨(c6_call_overflow_exit_swallow { Chip8VM.new with stack := ⟨[0x123], 1⟩ } 0x300 0).1 (by decide),
   (c6_call_overflow_exit_swallow Chip8VM.new 0x300 0).2 rfl⟩

/-- Claim C7 (code bug): the `FontChar` arm of `Chip8VM::execute` is an empty
TODO block — for every VM state it returns the state unchanged, never setting
`I` to `FONT_BASE + Vx * 5`.  Moreover the font is not laid out contiguously:
`Memory::new` writes `data[(i * 5) * j]` instead of `data[i * 5 + j]`, so
address 6 — which under a contiguous base-0 layout would hold the second byte
`0x60` of glyph 1 — still holds 0 after construction. -/
theorem c7_fontchar_noop_and_font_scattered :
    (∀ (vm : Chip8VM) (vx r : Nat), vm.execute (.FontChar vx) r = .ok vm) ∧
    Memory.new.read 6 = 0 ∧ (FONT.getD 1 []).getD 1 0 = 0x60 :=
  ⟨fun _ _ _ => rfl, by decide, by decide⟩

/-- Claim C8, counterexample: `0xF007` is the valid opcode `FX07` with
`X = 0`, so the decoder returns `GetDelayTimer(0)`, not `Unknown(0xF007)` as
the claim states. -/
theorem c8_decode_F007_is_get_delay_timer :
    Instruction.decode 0xF007 = .GetDelayTimer 0 ∧
    Instruction.decode 0xF007 ≠ .Unknown 0xF007 := by
  decide

/-- Claim C8, amended: `decode` maps `0x00E0` to `ClearScreen`, `0x6A3C` to
`SetVal(0xA, 0x3C)`, `0xD125` to `Display(1, 2, 5)`, and `0xF007` to
`GetDelayTimer(0)` (a valid `FX07` opcode, not `Unknown`). -/
theorem c8_decode_examples :
    Instruction.decode 0x00E0 = .ClearScreen ∧
    Instruction.decode 0x6A3C = .SetVal 0xA 0x3C ∧
    Instruction.decode 0xD125 = .Display 1 2 5 ∧
    Instruction.decode 0xF007 = .GetDelayTimer 0 := by
  decide

/-- Claim C9, counterexample: with `VF = 1`, executing `Add(0xF, 0xF)` leaves
`VF = 0` — not `(1 + 1) mod 256 = 2` as the claim requires for every register
pair — because the carry-flag write into `VF` clobbers the stored sum. -/
theorem c9_add_vf_clobbers_sum :
    (({ Chip8VM.new with registers := Registers.new.set 0xF 1 } : Chip8VM).execute
        (.Add 0xF 0xF) 0).toOption.map (fun v => v.registers.get 0xF) = some 0 ∧
    (1 + 1) % 256 = 2 := by
  decide

/-- Claim C9, amended: after `Add(vx, vy)`, `VF` is 1 exactly when the
pre-op unsigned sum exceeds 255 (else 0), and for `vx ≠ 0xF` the final `Vx`
is the pre-op sum mod 256; when `vx = 0xF` the subsequent carry write into
`VF` overwrites the stored sum. -/
theorem c9_add_semantics (vm : Chip8VM) (vx vy r : Nat) (hx : vx < 16)
    (hlen : vm.registers.data.length = 16) :
    ∃ vm', vm.execute (.Add vx vy) r = .ok vm' ∧
      vm'.registers.get 0xF = (if 255 < vm.registers.get vx + vm.registers.get vy then 1 else 0) ∧
      (vx ≠ 0xF → vm'.registers.get vx = (vm.registers.get vx + vm.registers.get vy) % 256) := by
  have hexec : vm.execute (.Add vx vy) r = .ok { vm with registers := ((vm.registers.set vx ((vm.registers.get vx + vm.registers.get vy) % 256)).set 0xF (if 255 < vm.registers.get vx + vm.registers.get vy then 1 else 0)) } := by
    simp only [Chip8VM.execute]
    by_cases hc : 255 < vm.registers.get vx + vm.registers.get vy
    · rw [if_pos hc, if_pos hc]
    · rw [if_neg hc, if_neg hc]
  refine ⟨_, hexec, ?_, ?_⟩
  · show ((vm.registers.set vx ((vm.registers.get vx + vm.registers.get vy) % 256)).set 0xF (if 255 < vm.registers.get vx + vm.registers.get vy then 1 else 0)).get 0xF = _
    simp only [Registers.get, Registers.set]
    exact getD_set_self _ 0xF _ _ (by simp [List.length_set, hlen])
  · intro hne
    show ((vm.registers.set vx ((vm.registers.get vx + vm.registers.get vy) % 256)).set 0xF (if 255 < vm.registers.get vx + vm.registers.get vy then 1 else 0)).get vx = _
    simp only [Registers.get, Registers.set]
    rw [getD_set_ne _ 0xF vx _ _ (by omega)]
    exact getD_set_self _ vx _ _ (by rw [hlen]; omega)

/-- Witness for the amended C9 theorem on a fresh VM with `vx = 1`,
`vy = 2`. -/
theorem c9_add_semantics_witness :
    ∃ vm', Chip8VM.new.execute (.Add 1 2) 0 = .ok vm' ∧
      vm'.registers.get 0xF = (if 255 < Chip8VM.new.registers.get 1 + Chip8VM.new.registers.get 2 then 1 else 0) ∧
      (1 ≠ 0xF → vm'.registers.get 1 = (Chip8VM.new.registers.get 1 + Chip8VM.new.registers.get 2) % 256) :=
  c9_add_semantics Chip8VM.new 1 2 0 (by decide) (by decide)

/-- Helper for claim C10: every register operand of a decoded instruction is
a nibble extracted by `d_reg1`/`d_reg2`, hence below 16. -/
theorem regOperands_decode_lt (w : Nat) :
    ∀ i ∈ (Instruction.decode w).regOperands, i < 16 := by
  intro i h
  unfold Instruction.decode at h
  split at h <;> try split at h
  all_goals simp only [Instruction.regOperands, List.mem_cons, List.not_mem_nil, or_false] at h
  all_goals
    first
      | (subst h; exact d_reg1_lt w)
      | (rcases h with rfl | rfl <;> first | exact d_reg1_lt w | exact d_reg2_lt w)

/-- Claim C10 (confirmed): the decoder's register operands (extracted by
`d_reg1`/`d_reg2`) are always at most 0xF, so indexing a 16-entry register
file with any decoded operand — as the `Registers` `Index`/`IndexMut`
implementations do in `execute` — is in bounds (`Registers.index` returns
`some`, never the out-of-range abort). -/
theorem c10_decoded_operands_in_bounds (w i : Nat) (regs : Registers)
    (hmem : i ∈ (Instruction.decode w).regOperands)
    (hlen : regs.data.length = 16) :
    i < 16 ∧ (Registers.index regs i).isSome := by
  have hi : i < 16 := regOperands_decode_lt w i hmem
  refine ⟨hi, ?_⟩
  unfold Registers.index
  rw [List.get?_eq_getElem?, List.getElem?_eq_getElem (by omega)]
  rfl

/-- Witness for the C10 theorem at word `0x8124` (`Add(1, 2)`), operand 1,
on the fresh register file. -/
theorem c10_decoded_operands_in_bounds_witness :
    1 < 16 ∧ (Registers.index Registers.new 1).isSome :=
  c10_decoded_operands_in_bounds 0x8124 1 Registers.new (by decide) (by decide)
